import Mathlib

/-!
Verification of the occupancy state machine and reporting coordinator of the
medical-facility vision service.

The embedding follows the source:
- `src/packages/vision-service/src/detector.py` (`OccupancyDetector`): the
  fields `current_status`, `last_motion_time`, `last_status_change`,
  `motion_frames_count`, `no_motion_frames_count` and the operations
  `detect` and `should_trigger_cleaning`.
- `src/packages/vision-service/src/main.py` (`VisionService.process_frame`):
  the coordinator fields `cleaning_action_created` and
  `last_dashboard_status`, the status-update / action-creation requests and
  the gateway success gating.

Modelling conventions:
- The background-subtraction pipeline (`cv2.countNonZero` of the foreground
  mask) is abstracted as the tick's non-negative motion metric
  (`motion_pixels : Nat`); a tick's frame is `Option Nat`, `none` when the
  camera yields no frame.
- Timestamps are rationals measured in seconds; the several `datetime.now()`
  reads inside one `detect` call are modelled as one injected `now`.
- Python float confidences (`min(1.0, n / 10.0)` etc.) are modelled as exact
  rationals; at every comparison the claims exercise, the double rounding of
  these small decimal fractions agrees with the exact rational order.
- Gateway calls (`update_room_status`, `create_action_item`) return a
  success boolean; each tick carries an oracle for the two possible calls.
-/

set_option maxRecDepth 1000000

namespace VisionService

/-- Room occupancy status, the two string values `"available"` /
`"occupied"` of the detector. -/
inductive Status where
  | available
  | occupied
deriving DecidableEq

/-- Configuration of `OccupancyDetector.__init__`. -/
structure DetectorConfig where
  motion_threshold : ℕ
  confidence_threshold : ℚ
  motion_frames_required : ℕ
  no_motion_frames_required : ℕ
  occupied_cooldown_seconds : ℚ
deriving DecidableEq

/-- The constructor defaults: `motion_threshold=500`,
`confidence_threshold=0.7`, `motion_frames_required=3`,
`no_motion_frames_required=40`, `occupied_cooldown_seconds=30`. -/
def defaultDetectorConfig : DetectorConfig :=
  { motion_threshold := 500
    confidence_threshold := 7/10
    motion_frames_required := 3
    no_motion_frames_required := 40
    occupied_cooldown_seconds := 30 }

/-- The mutable state of `OccupancyDetector`. -/
structure DetectorState where
  current_status : Status
  last_motion_time : Option ℚ
  last_status_change : Option ℚ
  motion_frames_count : ℕ
  no_motion_frames_count : ℕ
deriving DecidableEq

/-- State after `__init__`: `"available"`, no recorded times, zero
counters. -/
def initialDetectorState : DetectorState :=
  { current_status := Status.available
    last_motion_time := none
    last_status_change := none
    motion_frames_count := 0
    no_motion_frames_count := 0 }

/-- The tuple returned by `detect`, with the post-call state. -/
structure DetectResult where
  state : DetectorState
  status : Status
  confidence : ℚ
  changed : Bool
deriving DecidableEq

/-- Counter / last-motion update of `detect` (detector.py lines 66-75). -/
def updateCounters (cfg : DetectorConfig) (s : DetectorState)
    (motion_pixels : ℕ) (now : ℚ) : DetectorState :=
  if cfg.motion_threshold < motion_pixels then
    { s with last_motion_time := some now
             motion_frames_count := s.motion_frames_count + 1
             no_motion_frames_count := 0 }
  else
    { s with motion_frames_count := 0
             no_motion_frames_count := s.no_motion_frames_count + 1 }

/-- Status / confidence computation of `detect` (detector.py lines 81-101),
applied to the state after the counter update.  Returns the new
`current_status` together with the confidence. -/
def candidateStatus (cfg : DetectorConfig) (s1 : DetectorState) (now : ℚ) :
    Status × ℚ :=
  if cfg.motion_frames_required ≤ s1.motion_frames_count then
    (Status.occupied, min 1 ((s1.motion_frames_count : ℚ) / 10))
  else if cfg.no_motion_frames_required ≤ s1.no_motion_frames_count then
    match s1.current_status, s1.last_status_change with
    | Status.occupied, some t =>
      if now - t < cfg.occupied_cooldown_seconds then
        (Status.occupied, 1/2)
      else
        (Status.available, min 1 ((s1.no_motion_frames_count : ℚ) / 60))
    | _, _ => (Status.available, min 1 ((s1.no_motion_frames_count : ℚ) / 60))
  else
    (s1.current_status, 1/2)

/-- The operation `OccupancyDetector.detect` (detector.py lines 44-111).  A `none` frame
returns `(current_status, 0.0, False)` without touching the state.
Otherwise the counters are updated, the new status and confidence are
computed, the status is committed to the state, and `changed` /
`last_status_change` are set only when the status differs from the
pre-call one with confidence at least `confidence_threshold`. -/
def detect (cfg : DetectorConfig) (s : DetectorState) (frame : Option ℕ)
    (now : ℚ) : DetectResult :=
  match frame with
  | none => ⟨s, s.current_status, 0, false⟩
  | some motion_pixels =>
    let s1 := updateCounters cfg s motion_pixels now
    let previous_status := s1.current_status
    let c := candidateStatus cfg s1 now
    let changed :=
      decide (c.1 ≠ previous_status) && decide (cfg.confidence_threshold ≤ c.2)
    let s2 : DetectorState :=
      { s1 with current_status := c.1
                last_status_change :=
                  if changed then some now else s1.last_status_change }
    ⟨s2, c.1, c.2, changed⟩

/-- The operation `OccupancyDetector.should_trigger_cleaning` (detector.py lines
125-137): available, with a recorded status change at least
`cleaning_timeout_minutes * 60` seconds ago. -/
def should_trigger_cleaning (s : DetectorState)
    (cleaning_timeout_minutes : ℕ) (now : ℚ) : Bool :=
  if s.current_status ≠ Status.available then false
  else
    match s.last_status_change with
    | none => false
    | some t => decide ((cleaning_timeout_minutes : ℚ) * 60 ≤ now - t)

/-- Running `detect` over a list of `(frame, now)` calls, keeping the final
state. -/
def runDetect (cfg : DetectorConfig) (s : DetectorState) :
    List (Option ℕ × ℚ) → DetectorState
  | [] => s
  | c :: rest => runDetect cfg (detect cfg s c.1 c.2).state rest

/-- Service-level configuration of `VisionService.__init__`: the detector
configuration plus `cleaning_timeout_minutes`. -/
structure ServiceConfig where
  detector : DetectorConfig
  cleaning_timeout_minutes : ℕ
deriving DecidableEq

/-- The defaults of `VisionService.__init__` (`OCCUPANCY_CONFIDENCE=0.7`,
`CLEANING_TIMEOUT_MINUTES=5`, `MOTION_THRESHOLD=500`). -/
def defaultServiceConfig : ServiceConfig :=
  { detector := defaultDetectorConfig
    cleaning_timeout_minutes := 5 }

/-- The coordinator state of `VisionService`: its detector plus
`cleaning_action_created` and `last_dashboard_status`. -/
structure ServiceState where
  detector : DetectorState
  cleaning_action_created : Bool
  last_dashboard_status : Option Status
deriving DecidableEq

/-- Service state right after `__init__`. -/
def initialServiceState : ServiceState :=
  { detector := initialDetectorState
    cleaning_action_created := false
    last_dashboard_status := none }

/-- Per-tick gateway oracle: the boolean result
`DashboardClient.update_room_status` / `create_action_item` would return
if called on this tick. -/
structure GatewayBehavior where
  updateOk : Bool
  createOk : Bool
deriving DecidableEq

/-- One tick of the polling loop: the captured frame (as its motion
metric; `none` when capture failed), the timestamp, and the gateway
oracle. -/
structure Tick where
  frame : Option ℕ
  now : ℚ
  gw : GatewayBehavior
deriving DecidableEq

/-- Externally observable effects of one `process_frame` call:
the detector output (`none` when the tick was skipped for lack of a
frame), the `changed` flag, the status-update request issued to the
gateway (with the dashboard status it carried), and whether an
action-creation request was issued. -/
structure TickOutput where
  status : Option Status
  changed : Bool
  statusUpdateSent : Option Status
  actionCreateSent : Bool
deriving DecidableEq

/-- The body of `VisionService.process_frame` after a successful capture
(main.py lines 99-144): run `detect`; if `changed` and the dashboard
status differs from `last_dashboard_status`, issue a status-update and
record it only on gateway success; if `changed` and the status is
occupied, reset `cleaning_action_created`; then, if the status is
available, no cleaning action is pending and
`should_trigger_cleaning` holds, issue an action-creation and set
`cleaning_action_created` only on gateway success. -/
def process_frame_core (cfg : ServiceConfig) (ss : ServiceState)
    (motion_pixels : ℕ) (now : ℚ) (gw : GatewayBehavior) :
    ServiceState × TickOutput :=
    let r := detect cfg.detector ss.detector (some motion_pixels) now
    let upd : Option Status × Option Status :=
      if r.changed then
        let dashboard_status := r.status
        if some dashboard_status ≠ ss.last_dashboard_status then
          if gw.updateOk then (some dashboard_status, some dashboard_status)
          else (ss.last_dashboard_status, some dashboard_status)
        else (ss.last_dashboard_status, none)
      else (ss.last_dashboard_status, none)
    let cac1 :=
      if r.changed && decide (r.status = Status.occupied) then false
      else ss.cleaning_action_created
    let doCreate :=
      decide (r.status = Status.available) && !cac1 &&
        should_trigger_cleaning r.state cfg.cleaning_timeout_minutes now
    let cac2 := if doCreate then (if gw.createOk then true else cac1) else cac1
    (⟨r.state, cac2, upd.1⟩, ⟨some r.status, r.changed, upd.2, doCreate⟩)

/-- The operation `VisionService.process_frame` proper: a tick without a frame is
skipped (main.py lines 94-97), otherwise the body above runs on the
frame's motion metric. -/
def process_frame (cfg : ServiceConfig) (ss : ServiceState) (t : Tick) :
    ServiceState × TickOutput :=
  match t.frame with
  | none => (ss, ⟨none, false, none, false⟩)
  | some motion_pixels => process_frame_core cfg ss motion_pixels t.now t.gw

/-- Running the polling loop body over a list of ticks, collecting the
final coordinator state and every tick's observable output, in order. -/
def runService (cfg : ServiceConfig) (ss : ServiceState) :
    List Tick → ServiceState × List TickOutput
  | [] => (ss, [])
  | t :: rest =>
    let r := process_frame cfg ss t
    let rr := runService cfg r.1 rest
    (rr.1, r.2 :: rr.2)

/-- The dashboard statuses of the status-update requests issued during a
run, in order. -/
def sentValues (outs : List TickOutput) : List Status :=
  outs.filterMap TickOutput.statusUpdateSent

/-- How many action-creation requests a run issued. -/
def countCreates (outs : List TickOutput) : ℕ :=
  (outs.filter TickOutput.actionCreateSent).length

/-- A list of `n` consecutive calls with a constant motion metric, at times
`t0, t0 + dt, t0 + 2 dt, …`. -/
def constCalls (metric : Option ℕ) : ℚ → ℚ → ℕ → List (Option ℕ × ℚ)
  | _, _, 0 => []
  | t0, dt, n + 1 => (metric, t0) :: constCalls metric (t0 + dt) dt n

/-- A list of `n` consecutive ticks with a constant motion metric and a constant
gateway oracle, at times `t0, t0 + dt, t0 + 2 dt, …`. -/
def constTicks (metric : Option ℕ) (gw : GatewayBehavior) :
    ℚ → ℚ → ℕ → List Tick
  | _, _, 0 => []
  | t0, dt, n + 1 => ⟨metric, t0, gw⟩ :: constTicks metric gw (t0 + dt) dt n

/-- Holds when every
element of `sentValues` differs from the value sent just before it (the
seed is the `last_dashboard_status` at the start of the run). -/
def debounced : Option Status → List Status → Bool
  | _, [] => true
  | prev, v :: rest => decide (prev ≠ some v) && debounced (some v) rest

/-! ### Concrete configurations, states and traces used in the
counterexamples and witnesses -/

/-- A configuration differing from the defaults only in a lower
confidence threshold `3/10` (`OCCUPANCY_CONFIDENCE=0.3`). -/
def lowConfidenceConfig : DetectorConfig :=
  { defaultDetectorConfig with confidence_threshold := 3/10 }

/-- An available detector state that has already seen two consecutive
motion frames. -/
def twoMotionFrames : DetectorState :=
  { current_status := Status.available
    last_motion_time := some 1
    last_status_change := none
    motion_frames_count := 2
    no_motion_frames_count := 0 }

/-- A detector state that just entered occupied at time `t = 0`. -/
def occupiedAtZero : DetectorState :=
  { current_status := Status.occupied
    last_motion_time := some 0
    last_status_change := some 0
    motion_frames_count := 3
    no_motion_frames_count := 0 }

/-- The trace of the C2 counterexample: at the default 2 FPS cadence,
three motion calls at `t = 0, 1/2, 1` (the detector enters occupied on
the call at `t = 1`), then 39 zero-motion calls at `t = 3/2, …, 41/2`. -/
def c2Calls : List (Option ℕ × ℚ) :=
  constCalls (some 800) 0 (1/2) 3 ++ constCalls (some 0) (3/2) (1/2) 39

/-- The first 39 of the 40 zero-motion calls of Scenario C, at ascending
times `7/8, 14/8, …` below 35. -/
def scenarioCCalls : List (Option ℕ × ℚ) :=
  constCalls (some 0) (7/8) (7/8) 39

/-- A service configuration with confidence threshold `1/2`
(`OCCUPANCY_CONFIDENCE=0.5`) and defaults otherwise. -/
def halfConfidenceServiceConfig : ServiceConfig :=
  { detector := { defaultDetectorConfig with confidence_threshold := 1/2 }
    cleaning_timeout_minutes := 5 }

/-- A gateway that accepts every request. -/
def okGateway : GatewayBehavior := ⟨true, true⟩

/-- A gateway that rejects status updates but accepts action
creations. -/
def failUpdateGateway : GatewayBehavior := ⟨false, true⟩

/-- A gateway that rejects every request. -/
def downGateway : GatewayBehavior := ⟨false, false⟩

/-- The C5 counterexample trace (all gateway calls succeed): three
motion ticks at `t = 0, 1, 2`, forty zero ticks at `t = 3, …, 42` (a
confident flip to available at `t = 42`), one zero tick at `t = 343`
(the cleaning action fires and succeeds), then two motion ticks at
`t = 344, 345`. -/
def c5Ticks : List Tick :=
  constTicks (some 800) okGateway 0 1 3 ++
    constTicks (some 0) okGateway 3 1 40 ++
    (⟨some 0, 343, okGateway⟩ :: constTicks (some 800) okGateway 344 1 2)

/-- The C8 counterexample trace (every status update fails): three
motion ticks at `t = 0, 1, 2`, forty zero ticks at `t = 3, …, 42` (a
confident flip to available at `t = 42`, update sent and rejected),
three motion ticks at `t = 43, 44, 45` (a below-threshold flip to
occupied), forty zero ticks at `t = 46, …, 85` (another confident flip
to available at `t = 85`, update sent again). -/
def c8Ticks : List Tick :=
  constTicks (some 800) failUpdateGateway 0 1 3 ++
    constTicks (some 0) failUpdateGateway 3 1 40 ++
    constTicks (some 800) failUpdateGateway 43 1 3 ++
    constTicks (some 0) failUpdateGateway 46 1 40

/-- The 43-tick witness trace for the amended C8 (all gateway calls
succeed, threshold `3/10`): three motion ticks then forty zero ticks,
producing one occupied update followed by one available update. -/
def c8WitnessTicks : List Tick :=
  constTicks (some 800) okGateway 0 1 3 ++ constTicks (some 0) okGateway 3 1 40

/-- A service configuration with the low confidence threshold `3/10`. -/
def lowConfidenceServiceConfig : ServiceConfig :=
  { detector := lowConfidenceConfig
    cleaning_timeout_minutes := 5 }

/-- A coordinator state whose room has been available since a recorded
status change at `t = 0`, with no cleaning action created yet. -/
def availableSinceZero : ServiceState :=
  { detector :=
      { current_status := Status.available
        last_motion_time := none
        last_status_change := some 0
        motion_frames_count := 0
        no_motion_frames_count := 0 }
    cleaning_action_created := false
    last_dashboard_status := none }

/-! ### Basic unfolding lemmas -/

section RatComputable

/- The Batteries rational arithmetic operations are `@[irreducible]`,
which blocks `decide` on concrete runs of the embedded program; they are
restored to normal reducibility locally so that closed facts about
concrete traces can be settled by evaluation. -/
attribute [local semireducible] Rat.mul Rat.inv Rat.add Rat.sub

theorem available_ne_occupied : Status.available ≠ Status.occupied :=
  fun h => Status.noConfusion h

theorem occupied_ne_available : Status.occupied ≠ Status.available :=
  fun h => Status.noConfusion h

theorem runService_cons (cfg : ServiceConfig) (ss : ServiceState) (t : Tick)
    (ticks : List Tick) :
    runService cfg ss (t :: ticks) =
      ((runService cfg (process_frame cfg ss t).1 ticks).1,
        (process_frame cfg ss t).2 ::
          (runService cfg (process_frame cfg ss t).1 ticks).2) := rfl

theorem updateCounters_current_status (cfg : DetectorConfig)
    (s : DetectorState) (m : ℕ) (now : ℚ) :
    (updateCounters cfg s m now).current_status = s.current_status := by
  unfold updateCounters; split <;> rfl

theorem updateCounters_last_status_change (cfg : DetectorConfig)
    (s : DetectorState) (m : ℕ) (now : ℚ) :
    (updateCounters cfg s m now).last_status_change = s.last_status_change := by
  unfold updateCounters; split <;> rfl

theorem detect_some_eq (cfg : DetectorConfig) (s : DetectorState) (m : ℕ)
    (now : ℚ) :
    detect cfg s (some m) now =
      ⟨{ updateCounters cfg s m now with
           current_status := (candidateStatus cfg (updateCounters cfg s m now) now).1
           last_status_change :=
             if decide ((candidateStatus cfg (updateCounters cfg s m now) now).1 ≠
                    (updateCounters cfg s m now).current_status) &&
                decide (cfg.confidence_threshold ≤
                    (candidateStatus cfg (updateCounters cfg s m now) now).2)
             then some now
             else (updateCounters cfg s m now).last_status_change },
       (candidateStatus cfg (updateCounters cfg s m now) now).1,
       (candidateStatus cfg (updateCounters cfg s m now) now).2,
       decide ((candidateStatus cfg (updateCounters cfg s m now) now).1 ≠
           (updateCounters cfg s m now).current_status) &&
         decide (cfg.confidence_threshold ≤
             (candidateStatus cfg (updateCounters cfg s m now) now).2)⟩ := rfl

/-! ### C9: a `None` frame is a no-op -/

/-- C9: for every detector state, calling `detect` with a `None` frame
returns `(current_status, 0.0, False)` and leaves every field of the
detector state unchanged. -/
theorem c9_none_frame_noop (cfg : DetectorConfig) (s : DetectorState)
    (now : ℚ) :
    detect cfg s none now = ⟨s, s.current_status, 0, false⟩ := rfl

/-! ### C1: sub-threshold confidence and status changes

The code commits the newly computed status to `current_status`
unconditionally (detector.py lines 83, 94, 97); only the `changed` flag
and `last_status_change` are gated on
`confidence >= confidence_threshold` (line 105).  So `current_status`
can change on a call whose confidence is below the threshold. -/

/-- C1 fails on the code: with the default configuration, starting from
the initial state, the third consecutive motion call flips
`current_status` from available to occupied while the confidence of that
very call is `3/10 < 7/10`, below the threshold. -/
theorem c1_counterexample :
    (runDetect defaultDetectorConfig initialDetectorState
        [(some 800, 0), (some 800, 1)]).current_status = Status.available ∧
    (detect defaultDetectorConfig
        (runDetect defaultDetectorConfig initialDetectorState
          [(some 800, 0), (some 800, 1)]) (some 800) 2).state.current_status =
      Status.occupied ∧
    (detect defaultDetectorConfig
        (runDetect defaultDetectorConfig initialDetectorState
          [(some 800, 0), (some 800, 1)]) (some 800) 2).confidence <
      defaultDetectorConfig.confidence_threshold := by
  decide

/-- C1 amended: the `changed` flag is true only when the confidence of
the same call is at least `confidence_threshold`, and
`last_status_change` is updated only on such calls; `current_status`
itself may change on a below-threshold call. -/
theorem c1_amended (cfg : DetectorConfig) (s : DetectorState) (m : ℕ)
    (now : ℚ) :
    ((detect cfg s (some m) now).changed = true →
      cfg.confidence_threshold ≤ (detect cfg s (some m) now).confidence) ∧
    ((detect cfg s (some m) now).changed = false →
      (detect cfg s (some m) now).state.last_status_change =
        s.last_status_change) := by
  rw [detect_some_eq]
  dsimp only
  constructor
  · intro h
    rw [Bool.and_eq_true] at h
    exact of_decide_eq_true h.2
  · intro h
    rw [h]
    simp [updateCounters_last_status_change]

/-- Witness for `c1_amended`: the first part at a call that reports a
change (low threshold, third motion frame), the second part at a call
that does not (first motion frame from the initial state). -/
theorem c1_amended_witness :
    lowConfidenceConfig.confidence_threshold ≤
      (detect lowConfidenceConfig twoMotionFrames (some 800) 2).confidence ∧
    (detect defaultDetectorConfig initialDetectorState (some 800) 0).state.last_status_change =
      initialDetectorState.last_status_change :=
  ⟨(c1_amended lowConfidenceConfig twoMotionFrames 800 2).1 (by decide),
   (c1_amended defaultDetectorConfig initialDetectorState 800 0).2
     (by decide)⟩

/-! ### C2: the occupied cooldown

The cooldown branch (detector.py lines 88-95) fires only when
`last_status_change is not None`; that field is written only by a
confident (`changed = True`) transition (line 107).  A state that became
occupied through a below-threshold call has `last_status_change = None`
and leaves occupied with no cooldown at all. -/

/-- C2 fails on the code: from the initial state under the default
configuration, the detector transitions into occupied on the motion call
at `t = 1` (a below-threshold change, so `last_status_change` stays
`None`), and the 40th consecutive zero-motion call at `t = 21` — only 20
seconds later, less than the 30-second cooldown — flips `current_status`
to available. -/
theorem c2_counterexample :
    (runDetect defaultDetectorConfig initialDetectorState
        (constCalls (some 800) 0 (1/2) 3)).current_status =
      Status.occupied ∧
    (runDetect defaultDetectorConfig initialDetectorState
        c2Calls).current_status = Status.occupied ∧
    (detect defaultDetectorConfig
        (runDetect defaultDetectorConfig initialDetectorState c2Calls)
        (some 0) 21).state.current_status = Status.available ∧
    (21 : ℚ) - 1 < defaultDetectorConfig.occupied_cooldown_seconds := by
  decide

/-- If the detector is occupied with a recorded status change at `t`,
one `detect` call earlier than `t + occupied_cooldown_seconds` keeps it
occupied and keeps `last_status_change = some t`. -/
theorem detect_stays_occupied (cfg : DetectorConfig) (s : DetectorState)
    (frame : Option ℕ) (now t : ℚ)
    (hocc : s.current_status = Status.occupied)
    (hlsc : s.last_status_change = some t)
    (hnow : now < t + cfg.occupied_cooldown_seconds) :
    (detect cfg s frame now).state.current_status = Status.occupied ∧
    (detect cfg s frame now).state.last_status_change = some t := by
  cases frame with
  | none => exact ⟨hocc, hlsc⟩
  | some m =>
    have hc1 : (updateCounters cfg s m now).current_status =
        Status.occupied := by
      rw [updateCounters_current_status, hocc]
    have hc2 : (updateCounters cfg s m now).last_status_change = some t := by
      rw [updateCounters_last_status_change, hlsc]
    have hcand : (candidateStatus cfg (updateCounters cfg s m now) now).1 =
        Status.occupied := by
      unfold candidateStatus
      split
      · rfl
      · rw [hc1, hc2]
        have hlt : now - t < cfg.occupied_cooldown_seconds := by linarith
        simp [hlt]
    rw [detect_some_eq]
    dsimp only
    have hne : decide
        ((candidateStatus cfg (updateCounters cfg s m now) now).1 ≠
          (updateCounters cfg s m now).current_status) = false := by
      simp [hcand, hc1]
    rw [hne]
    simp [hcand, hc2]

/-- C2 amended: once `current_status = occupied` with a recorded
`last_status_change = some t` (a confident transition), no sequence of
calls all earlier than `t + occupied_cooldown_seconds` can turn the
status to available — regardless of motion-absence duration.  (When
`last_status_change = None` the cooldown does not apply, per the
counterexample.) -/
theorem c2_amended (cfg : DetectorConfig) (s : DetectorState) (t : ℚ)
    (calls : List (Option ℕ × ℚ))
    (hocc : s.current_status = Status.occupied)
    (hlsc : s.last_status_change = some t)
    (htimes : ∀ c ∈ calls, c.2 < t + cfg.occupied_cooldown_seconds) :
    (runDetect cfg s calls).current_status = Status.occupied := by
  induction calls generalizing s with
  | nil => exact hocc
  | cons c rest ih =>
    have hstep := detect_stays_occupied cfg s c.1 c.2 t hocc hlsc
      (htimes c (List.mem_cons_self c rest))
    exact ih (detect cfg s c.1 c.2).state hstep.1 hstep.2
      (fun x hx => htimes x (List.mem_cons_of_mem c hx))

/-- Witness for `c2_amended`: a state that entered occupied at `t = 0`
stays occupied through a zero-motion call at `t = 10 < 30`. -/
theorem c2_amended_witness :
    (runDetect defaultDetectorConfig occupiedAtZero
        [(some 0, 10)]).current_status = Status.occupied :=
  c2_amended defaultDetectorConfig occupiedAtZero 0 [(some 0, 10)] rfl rfl
    (by decide)

/-! ### C3: Scenario A under the default configuration -/

/-- C3 fails on the code: with `motion_threshold = 500` and defaults
otherwise, the third of three consecutive calls with motion metric 800
reports `changed = false` (the claim says `changed = true`), because the
confidence of that call is `3/10`, below the default threshold `7/10`. -/
theorem c3_counterexample :
    (detect defaultDetectorConfig
        (runDetect defaultDetectorConfig initialDetectorState
          [(some 800, 0), (some 800, 1)]) (some 800) 2).changed = false := by
  decide

/-- C3 amended: on the third consecutive above-threshold call the status
is occupied, but `changed` is false and the confidence is `3/10`. -/
theorem c3_amended :
    (detect defaultDetectorConfig
        (runDetect defaultDetectorConfig initialDetectorState
          [(some 800, 0), (some 800, 1)]) (some 800) 2).status =
      Status.occupied ∧
    (detect defaultDetectorConfig
        (runDetect defaultDetectorConfig initialDetectorState
          [(some 800, 0), (some 800, 1)]) (some 800) 2).confidence = 3/10 ∧
    (detect defaultDetectorConfig
        (runDetect defaultDetectorConfig initialDetectorState
          [(some 800, 0), (some 800, 1)]) (some 800) 2).changed = false := by
  decide

/-! ### C4: Scenario C under the default configuration -/

/-- C4 fails on the code: from a state that entered occupied at `t = 0`,
the 40th consecutive zero-motion call at `t = 35` reports
`changed = false` (the claim says `changed = true`): the cooldown has
elapsed and the status does flip to available, but the confidence of
that call is `40/60 = 2/3`, below the default threshold `7/10`. -/
theorem c4_counterexample :
    (detect defaultDetectorConfig
        (runDetect defaultDetectorConfig occupiedAtZero scenarioCCalls)
        (some 0) 35).changed = false := by
  decide

/-- C4 amended: the 40th zero-motion call at `t = 35` yields status
available with confidence `2/3` and `changed = false`. -/
theorem c4_amended :
    (detect defaultDetectorConfig
        (runDetect defaultDetectorConfig occupiedAtZero scenarioCCalls)
        (some 0) 35).status = Status.available ∧
    (detect defaultDetectorConfig
        (runDetect defaultDetectorConfig occupiedAtZero scenarioCCalls)
        (some 0) 35).confidence = 2/3 ∧
    (detect defaultDetectorConfig
        (runDetect defaultDetectorConfig occupiedAtZero scenarioCCalls)
        (some 0) 35).changed = false := by
  decide

/-! ### C5: resetting `cleaning_action_created` on occupied transitions

The reset (main.py line 126) sits inside `if changed:` (line 113).  A
transition into occupied whose confidence is below the threshold has
`changed = False`, so the flag is not reset. -/

/-- C5 fails on the code: with confidence threshold `1/2` and all
gateway calls succeeding, running `c5Ticks` from the initial service
state reaches a state that is available with
`cleaning_action_created = true`; the next motion tick at `t = 346`
transitions the detector to occupied (third consecutive motion frame,
confidence `3/10 < 1/2`, so `changed = false`), and the flag is NOT
reset: it stays true. -/
theorem c5_counterexample :
    (runService halfConfidenceServiceConfig initialServiceState
        c5Ticks).1.detector.current_status = Status.available ∧
    (runService halfConfidenceServiceConfig initialServiceState
        c5Ticks).1.cleaning_action_created = true ∧
    (process_frame halfConfidenceServiceConfig
        (runService halfConfidenceServiceConfig initialServiceState c5Ticks).1
        ⟨some 800, 346, okGateway⟩).1.detector.current_status =
      Status.occupied ∧
    (process_frame halfConfidenceServiceConfig
        (runService halfConfidenceServiceConfig initialServiceState c5Ticks).1
        ⟨some 800, 346, okGateway⟩).1.cleaning_action_created = true := by
  decide

/-- C5 amended: on every tick whose detector output has
`changed = true` and status occupied — i.e. on every confident
transition into occupied — the coordinator resets
`cleaning_action_created` to false.  (A below-threshold transition into
occupied does not reset it, per the counterexample.) -/
theorem c5_amended (cfg : ServiceConfig) (ss : ServiceState) (t : Tick)
    (hch : (process_frame cfg ss t).2.changed = true)
    (hst : (process_frame cfg ss t).2.status = some Status.occupied) :
    (process_frame cfg ss t).1.cleaning_action_created = false := by
  cases hf : t.frame with
  | none => simp [process_frame, hf] at hch
  | some m =>
    have hch' : (detect cfg.detector ss.detector (some m) t.now).changed =
        true := by
      simpa [process_frame, hf, process_frame_core] using hch
    have hst' : (detect cfg.detector ss.detector (some m) t.now).status =
        Status.occupied := by
      simpa [process_frame, hf, process_frame_core] using hst
    simp [process_frame, hf, process_frame_core, hch', hst']

/-- Witness for `c5_amended`: with the low threshold `3/10`, a third
consecutive motion frame is a confident transition into occupied, and
the pending-cleaning flag (previously true) is reset. -/
theorem c5_amended_witness :
    (process_frame lowConfidenceServiceConfig
        ⟨twoMotionFrames, true, none⟩
        ⟨some 800, 2, okGateway⟩).1.cleaning_action_created = false :=
  c5_amended lowConfidenceServiceConfig ⟨twoMotionFrames, true, none⟩
    ⟨some 800, 2, okGateway⟩ (by decide) (by decide)

/-! ### C7: failed gateway calls leave the coordinator flags unchanged -/

/-- C7: on any tick, if the status-update gateway call would fail,
`last_dashboard_status` keeps its pre-tick value (it is assigned only
under `if success:`, main.py lines 120-122); and if an action-creation
request is issued and the gateway call fails, `cleaning_action_created`
is left false (it is assigned only under `if success:`, lines 142-144),
so the same request is re-attempted on the next qualifying tick. -/
theorem c7_failed_gateway_leaves_flags (cfg : ServiceConfig)
    (ss : ServiceState) (t : Tick) :
    (t.gw.updateOk = false →
      (process_frame cfg ss t).1.last_dashboard_status =
        ss.last_dashboard_status) ∧
    (t.gw.createOk = false →
      (process_frame cfg ss t).2.actionCreateSent = true →
      (process_frame cfg ss t).1.cleaning_action_created = false) := by
  cases hf : t.frame with
  | none =>
    constructor
    · intro _
      simp [process_frame, hf]
    · intro _ h
      simp [process_frame, hf] at h
  | some m =>
    constructor
    · intro hup
      simp only [process_frame, hf, process_frame_core, hup]
      split_ifs <;> simp_all
    · intro hcr hsent
      cases hch : (detect cfg.detector ss.detector (some m) t.now).changed <;>
        cases hoc : decide
          ((detect cfg.detector ss.detector (some m) t.now).status =
            Status.occupied) <;>
        cases hcac : ss.cleaning_action_created <;>
        simp_all [process_frame, hf, process_frame_core,
          available_ne_occupied, occupied_ne_available]

/-- Witness for `c7_failed_gateway_leaves_flags`: a room available since
`t = 0` at tick `t = 1000` with a down gateway — the action-creation
request is issued, fails, and `cleaning_action_created` stays false,
while `last_dashboard_status` is untouched. -/
theorem c7_witness :
    (process_frame defaultServiceConfig availableSinceZero
        ⟨some 0, 1000, downGateway⟩).1.last_dashboard_status =
      availableSinceZero.last_dashboard_status ∧
    (process_frame defaultServiceConfig availableSinceZero
        ⟨some 0, 1000, downGateway⟩).1.cleaning_action_created = false :=
  ⟨(c7_failed_gateway_leaves_flags defaultServiceConfig availableSinceZero
      ⟨some 0, 1000, downGateway⟩).1 rfl,
   (c7_failed_gateway_leaves_flags defaultServiceConfig availableSinceZero
      ⟨some 0, 1000, downGateway⟩).2 rfl (by decide)⟩

/-! ### C6: at most one action-creation request per empty period -/

/-- If a tick's detector output is not occupied and it issued an
action-creation request, the pending flag was false before the tick. -/
theorem create_sent_flag_was_false (cfg : ServiceConfig)
    (ss : ServiceState) (t : Tick)
    (hst : (process_frame cfg ss t).2.status ≠ some Status.occupied)
    (hsent : (process_frame cfg ss t).2.actionCreateSent = true) :
    ss.cleaning_action_created = false := by
  cases hf : t.frame with
  | none => simp [process_frame, hf] at hsent
  | some m =>
    have hstat : (detect cfg.detector ss.detector (some m) t.now).status ≠
        Status.occupied := by
      intro he
      exact hst (by simp [process_frame, hf, process_frame_core, he])
    cases hch : (detect cfg.detector ss.detector (some m) t.now).changed <;>
      cases hcac : ss.cleaning_action_created <;>
      simp_all [process_frame, hf, process_frame_core]

/-- If a tick's detector output is not occupied, it issued an
action-creation request and the gateway accepted it, the pending flag is
true after the tick. -/
theorem create_sent_ok_flag_set (cfg : ServiceConfig)
    (ss : ServiceState) (t : Tick)
    (hst : (process_frame cfg ss t).2.status ≠ some Status.occupied)
    (hsent : (process_frame cfg ss t).2.actionCreateSent = true)
    (hok : t.gw.createOk = true) :
    (process_frame cfg ss t).1.cleaning_action_created = true := by
  cases hf : t.frame with
  | none => simp [process_frame, hf] at hsent
  | some m =>
    have hstat : (detect cfg.detector ss.detector (some m) t.now).status ≠
        Status.occupied := by
      intro he
      exact hst (by simp [process_frame, hf, process_frame_core, he])
    cases hch : (detect cfg.detector ss.detector (some m) t.now).changed <;>
      cases hcac : ss.cleaning_action_created <;>
      simp_all [process_frame, hf, process_frame_core]

/-- If a tick's detector output is not occupied and it issued no
action-creation request, the pending flag is unchanged. -/
theorem create_not_sent_flag_unchanged (cfg : ServiceConfig)
    (ss : ServiceState) (t : Tick)
    (hst : (process_frame cfg ss t).2.status ≠ some Status.occupied)
    (hsent : (process_frame cfg ss t).2.actionCreateSent = false) :
    (process_frame cfg ss t).1.cleaning_action_created =
      ss.cleaning_action_created := by
  cases hf : t.frame with
  | none => simp [process_frame, hf]
  | some m =>
    have hstat : (detect cfg.detector ss.detector (some m) t.now).status ≠
        Status.occupied := by
      intro he
      exact hst (by simp [process_frame, hf, process_frame_core, he])
    cases hch : (detect cfg.detector ss.detector (some m) t.now).changed <;>
      cases hcac : ss.cleaning_action_created <;>
      simp_all [process_frame, hf, process_frame_core]

/-- Over any run whose outputs never report occupied, the number of
action-creation requests is bounded by one if the flag starts false and
by zero if it starts true, provided every issued request succeeds. -/
theorem countCreates_le_of_no_occupied (cfg : ServiceConfig)
    (ss : ServiceState) (ticks : List Tick)
    (hok : ∀ t ∈ ticks, t.gw.createOk = true)
    (hemp : ∀ o ∈ (runService cfg ss ticks).2,
      o.status ≠ some Status.occupied) :
    countCreates (runService cfg ss ticks).2 ≤
      (if ss.cleaning_action_created then 0 else 1) := by
  induction ticks generalizing ss with
  | nil =>
    have h0 : countCreates (runService cfg ss []).2 = 0 := rfl
    rw [h0]
    omega
  | cons t rest ih =>
    have hout : (runService cfg ss (t :: rest)).2 =
        (process_frame cfg ss t).2 ::
          (runService cfg (process_frame cfg ss t).1 rest).2 := rfl
    have hhd : (process_frame cfg ss t).2.status ≠ some Status.occupied :=
      hemp _ (by rw [hout]; exact List.mem_cons_self _ _)
    have htl : ∀ o ∈ (runService cfg (process_frame cfg ss t).1 rest).2,
        o.status ≠ some Status.occupied :=
      fun o ho => hemp o (by rw [hout]; exact List.mem_cons_of_mem _ ho)
    have hrestok : ∀ x ∈ rest, x.gw.createOk = true :=
      fun x hx => hok x (List.mem_cons_of_mem t hx)
    have hrec := ih (process_frame cfg ss t).1 hrestok htl
    have hcnt : countCreates (runService cfg ss (t :: rest)).2 =
        (if (process_frame cfg ss t).2.actionCreateSent then 1 else 0) +
          countCreates (runService cfg (process_frame cfg ss t).1 rest).2 := by
      rw [hout]
      simp only [countCreates, List.filter_cons]
      split <;> simp [Nat.add_comm]
    rw [hcnt]
    cases hsent : (process_frame cfg ss t).2.actionCreateSent with
    | false =>
      rw [create_not_sent_flag_unchanged cfg ss t hhd hsent] at hrec
      simpa using hrec
    | true =>
      rw [create_sent_ok_flag_set cfg ss t hhd hsent
        (hok t (List.mem_cons_self t rest))] at hrec
      rw [create_sent_flag_was_false cfg ss t hhd hsent]
      simp at hrec ⊢
      omega

/-- C6: within any run of ticks whose detector outputs never report
occupied (in particular within one sustained empty period), the
coordinator issues at most one action-creation request, however many
ticks elapse past the cleaning timeout, provided the gateway accepts the
requests. -/
theorem c6_at_most_one_cleaning_request (cfg : ServiceConfig)
    (ss : ServiceState) (ticks : List Tick)
    (hok : ∀ t ∈ ticks, t.gw.createOk = true)
    (hemp : ∀ o ∈ (runService cfg ss ticks).2,
      o.status ≠ some Status.occupied) :
    countCreates (runService cfg ss ticks).2 ≤ 1 :=
  le_trans (countCreates_le_of_no_occupied cfg ss ticks hok hemp)
    (by split <;> omega)

/-- Witness for `c6_at_most_one_cleaning_request`: a room available
since `t = 0`, three zero-motion ticks at `t = 1000, 1001, 1002` with an
accepting gateway — the first tick creates the cleaning action, the
rest are suppressed. -/
theorem c6_witness :
    countCreates (runService defaultServiceConfig availableSinceZero
        (constTicks (some 0) okGateway 1000 1 3)).2 ≤ 1 :=
  c6_at_most_one_cleaning_request defaultServiceConfig availableSinceZero
    (constTicks (some 0) okGateway 1000 1 3)
    (by decide) (by decide)

/-! ### C8: debounce of status-update requests -/

/-- The dashboard-status bookkeeping of one tick with a working update
gateway: a tick that issues no status-update request leaves
`last_dashboard_status` unchanged; a tick that issues one with value `v`
had `last_dashboard_status ≠ some v` before and `some v` after. -/
theorem process_frame_update_facts (cfg : ServiceConfig)
    (ss : ServiceState) (t : Tick) (hup : t.gw.updateOk = true) :
    ((process_frame cfg ss t).2.statusUpdateSent = none →
      (process_frame cfg ss t).1.last_dashboard_status =
        ss.last_dashboard_status) ∧
    (∀ v, (process_frame cfg ss t).2.statusUpdateSent = some v →
      ss.last_dashboard_status ≠ some v ∧
      (process_frame cfg ss t).1.last_dashboard_status = some v) := by
  cases hf : t.frame with
  | none =>
    constructor
    · intro _
      simp [process_frame, hf]
    · intro v hv
      simp [process_frame, hf] at hv
  | some m =>
    constructor
    · intro h
      by_cases hch : (detect cfg.detector ss.detector (some m) t.now).changed =
          true
      · by_cases hne : some (detect cfg.detector ss.detector
            (some m) t.now).status ≠ ss.last_dashboard_status
        · simp [process_frame, hf, process_frame_core, hch, hne, hup] at h
        · simp [process_frame, hf, process_frame_core, hch, hne, hup]
      · simp [process_frame, hf, process_frame_core, hch]
    · intro v hv
      by_cases hch : (detect cfg.detector ss.detector (some m) t.now).changed =
          true
      · by_cases hne : some (detect cfg.detector ss.detector
            (some m) t.now).status ≠ ss.last_dashboard_status
        · have hv' : (detect cfg.detector ss.detector (some m) t.now).status =
              v := by
            simpa [process_frame, hf, process_frame_core, hch, hne, hup]
              using hv
          subst hv'
          constructor
          · exact fun hc => hne hc.symm
          · simp [process_frame, hf, process_frame_core, hch, hne, hup]
        · simp [process_frame, hf, process_frame_core, hch, hne, hup] at hv
      · simp [process_frame, hf, process_frame_core, hch] at hv

/-- Seeded debounce invariant over a whole run: when every issued
status-update succeeds, every sent value differs from the previously
recorded one. -/
theorem debounced_runService (cfg : ServiceConfig) (ss : ServiceState)
    (ticks : List Tick) (hok : ∀ t ∈ ticks, t.gw.updateOk = true) :
    debounced ss.last_dashboard_status
      (sentValues (runService cfg ss ticks).2) = true := by
  induction ticks generalizing ss with
  | nil => rfl
  | cons t rest ih =>
    have hfacts := process_frame_update_facts cfg ss t
      (hok t (List.mem_cons_self t rest))
    have hrest := ih (process_frame cfg ss t).1
      (fun x hx => hok x (List.mem_cons_of_mem t hx))
    rw [runService_cons]
    cases hsent : (process_frame cfg ss t).2.statusUpdateSent with
    | none =>
      rw [hfacts.1 hsent] at hrest
      simpa [sentValues, List.filterMap_cons, hsent] using hrest
    | some v =>
      obtain ⟨hne, hlds⟩ := hfacts.2 v hsent
      rw [hlds] at hrest
      simp only [sentValues, List.filterMap_cons, hsent]
      simp only [debounced, Bool.and_eq_true, decide_eq_true_eq]
      exact ⟨hne, hrest⟩

/-- A `debounced` list of sent values has no two adjacent equal
elements. -/
theorem debounced_chain (l : List Status) :
    ∀ prev, debounced prev l = true → l.Chain' (fun a b => a ≠ b) := by
  induction l with
  | nil =>
    intro prev _
    exact List.chain'_nil
  | cons v rest ih =>
    intro prev h
    simp only [debounced, Bool.and_eq_true, decide_eq_true_eq] at h
    refine List.chain'_cons'.mpr ⟨?_, ih (some v) h.2⟩
    intro w hw
    cases rest with
    | nil => simp at hw
    | cons u urest =>
      simp only [List.head?_cons, Option.mem_def, Option.some.injEq] at hw
      subst hw
      have h2 := h.2
      simp only [debounced, Bool.and_eq_true, decide_eq_true_eq] at h2
      exact fun he => h2.1 (by rw [he])

/-- C8 fails on the code: with confidence threshold `1/2` and a gateway
that rejects status updates, the run `c8Ticks` from the initial service
state issues exactly two status-update requests, both carrying
`available` — two identical consecutive requests.  (The first request
fails, so `last_dashboard_status` stays `None`; a below-threshold flip
to occupied and a second confident flip back to available then repeat
the same request.) -/
theorem c8_counterexample :
    sentValues (runService halfConfidenceServiceConfig initialServiceState
        c8Ticks).2 = [Status.available, Status.available] ∧
    ¬ (sentValues (runService halfConfidenceServiceConfig
        initialServiceState c8Ticks).2).Chain' (fun a b => a ≠ b) := by
  have h : sentValues (runService halfConfidenceServiceConfig
      initialServiceState c8Ticks).2 = [Status.available, Status.available] := by
    decide
  refine ⟨h, fun hc => ?_⟩
  rw [h] at hc
  exact (List.chain'_cons.mp hc).1 rfl

/-- C8 amended: provided every issued status-update request succeeds,
the coordinator never issues two consecutive status-update requests
carrying the same dashboard status, even across multiple
`changed = true` events.  (With failing updates the counterexample shows
two identical consecutive requests.) -/
theorem c8_amended (cfg : ServiceConfig) (ss : ServiceState)
    (ticks : List Tick) (hok : ∀ t ∈ ticks, t.gw.updateOk = true) :
    (sentValues (runService cfg ss ticks).2).Chain' (fun a b => a ≠ b) :=
  debounced_chain (sentValues (runService cfg ss ticks).2)
    ss.last_dashboard_status (debounced_runService cfg ss ticks hok)

/-- Witness for `c8_amended`: with threshold `3/10` and an accepting
gateway, 43 ticks produce the request list `[occupied, available]`,
which has no two adjacent equal values. -/
theorem c8_amended_witness :
    (sentValues (runService lowConfidenceServiceConfig initialServiceState
        c8WitnessTicks).2).Chain' (fun a b => a ≠ b) :=
  c8_amended lowConfidenceServiceConfig initialServiceState c8WitnessTicks
    (by decide)

/-! ### C10: no cleaning trigger before the first confident change -/

theorem should_trigger_cleaning_none (s : DetectorState) (m : ℕ) (now : ℚ)
    (h : s.last_status_change = none) :
    should_trigger_cleaning s m now = false := by
  unfold should_trigger_cleaning
  split
  · rfl
  · rw [h]

theorem detect_state_status (cfg : DetectorConfig) (s : DetectorState)
    (m : ℕ) (now : ℚ) :
    (detect cfg s (some m) now).state.current_status =
      (detect cfg s (some m) now).status := rfl

/-- A call whose resulting status equals the pre-call status reports
`changed = false`. -/
theorem detect_changed_false_of_same (cfg : DetectorConfig)
    (s : DetectorState) (m : ℕ) (now : ℚ)
    (h : (detect cfg s (some m) now).status = s.current_status) :
    (detect cfg s (some m) now).changed = false := by
  rw [detect_some_eq] at h ⊢
  dsimp only at h ⊢
  simp [updateCounters_current_status, h]

/-- A call with `changed = false` leaves `last_status_change`
untouched. -/
theorem detect_lsc_of_changed_false (cfg : DetectorConfig)
    (s : DetectorState) (m : ℕ) (now : ℚ)
    (h : (detect cfg s (some m) now).changed = false) :
    (detect cfg s (some m) now).state.last_status_change =
      s.last_status_change := by
  rw [detect_some_eq] at h ⊢
  dsimp only at h ⊢
  rw [h]
  simp [updateCounters_last_status_change]

/-- One step of the C10 invariant: a tick from an available detector
state with no recorded status change, whose output is not occupied,
issues no action-creation request and preserves the invariant. -/
theorem process_frame_available_step (cfg : ServiceConfig)
    (ss : ServiceState) (t : Tick)
    (h1 : ss.detector.current_status = Status.available)
    (h2 : ss.detector.last_status_change = none)
    (hst : (process_frame cfg ss t).2.status ≠ some Status.occupied) :
    (process_frame cfg ss t).2.actionCreateSent = false ∧
    (process_frame cfg ss t).1.detector.current_status = Status.available ∧
    (process_frame cfg ss t).1.detector.last_status_change = none := by
  cases hf : t.frame with
  | none => refine ⟨?_, ?_, ?_⟩ <;> simp [process_frame, hf, h1, h2]
  | some m =>
    have hstat : (detect cfg.detector ss.detector (some m) t.now).status ≠
        Status.occupied := by
      intro he
      exact hst (by simp [process_frame, hf, process_frame_core, he])
    have hav : (detect cfg.detector ss.detector (some m) t.now).status =
        Status.available := by
      cases hx : (detect cfg.detector ss.detector (some m) t.now).status
      · rfl
      · exact absurd hx hstat
    have hch : (detect cfg.detector ss.detector (some m) t.now).changed =
        false :=
      detect_changed_false_of_same cfg.detector ss.detector m t.now
        (by rw [hav, h1])
    have hlsc : (detect cfg.detector ss.detector
        (some m) t.now).state.last_status_change = none := by
      rw [detect_lsc_of_changed_false cfg.detector ss.detector m t.now hch, h2]
    have hcur : (detect cfg.detector ss.detector
        (some m) t.now).state.current_status = Status.available := by
      rw [detect_state_status, hav]
    have htrig : should_trigger_cleaning
        (detect cfg.detector ss.detector (some m) t.now).state
        cfg.cleaning_timeout_minutes t.now = false :=
      should_trigger_cleaning_none _ _ _ hlsc
    refine ⟨?_, ?_, ?_⟩ <;>
      simp [process_frame, hf, process_frame_core, hch, htrig, hcur, hlsc]

/-- From any state satisfying the invariant — available and no recorded
status change — a run whose outputs never report occupied issues no
action-creation request at all. -/
theorem no_creates_from_fresh_available (cfg : ServiceConfig)
    (ss : ServiceState) (ticks : List Tick)
    (h1 : ss.detector.current_status = Status.available)
    (h2 : ss.detector.last_status_change = none)
    (hemp : ∀ o ∈ (runService cfg ss ticks).2,
      o.status ≠ some Status.occupied) :
    ∀ o ∈ (runService cfg ss ticks).2, o.actionCreateSent = false := by
  induction ticks generalizing ss with
  | nil =>
    intro o ho
    simp [runService] at ho
  | cons t rest ih =>
    have hhd := hemp _ (by rw [runService_cons]; exact List.mem_cons_self _ _)
    have hstep := process_frame_available_step cfg ss t h1 h2 hhd
    intro o ho
    rw [runService_cons] at ho
    rcases List.mem_cons.mp ho with rfl | ho'
    · exact hstep.1
    · exact ih (process_frame cfg ss t).1 hstep.2.1 hstep.2.2
        (fun x hx =>
          hemp x (by rw [runService_cons]; exact List.mem_cons_of_mem _ hx))
        o ho'

/-- C10: `should_trigger_cleaning` returns false whenever
`last_status_change` is `None`, for every cleaning timeout; hence a
service whose room never reports occupied after startup — it has
remained available since the start — never issues a cleaning
action-creation request, no matter how much time elapses. -/
theorem c10_no_cleaning_before_first_confident_change :
    (∀ (s : DetectorState) (m : ℕ) (now : ℚ),
      s.last_status_change = none →
      should_trigger_cleaning s m now = false) ∧
    (∀ (cfg : ServiceConfig) (ticks : List Tick),
      (∀ o ∈ (runService cfg initialServiceState ticks).2,
        o.status ≠ some Status.occupied) →
      ∀ o ∈ (runService cfg initialServiceState ticks).2,
        o.actionCreateSent = false) :=
  ⟨should_trigger_cleaning_none,
   fun cfg ticks hemp =>
     no_creates_from_fresh_available cfg initialServiceState ticks rfl rfl
       hemp⟩

/-- Witness for `c10_no_cleaning_before_first_confident_change`: the
initial detector state triggers no cleaning even at `t = 1000`, and a
zero-motion tick from the initial service state issues no
action-creation request. -/
theorem c10_witness :
    should_trigger_cleaning initialDetectorState 5 1000 = false ∧
    (process_frame defaultServiceConfig initialServiceState
        ⟨some 0, 0, okGateway⟩).2.actionCreateSent = false :=
  ⟨c10_no_cleaning_before_first_confident_change.1 initialDetectorState 5
      1000 rfl,
   c10_no_cleaning_before_first_confident_change.2 defaultServiceConfig
     [⟨some 0, 0, okGateway⟩]
     (by decide)
     (process_frame defaultServiceConfig initialServiceState
       ⟨some 0, 0, okGateway⟩).2
     (List.mem_cons_self _ _)⟩

end RatComputable

end VisionService
